import Mathlib

/-!
Shallow embedding of `src/main.rs` of jonasrdl/rusty-ls, a small `ls`
replacement, together with theorems settling the specification claims.

Modelling conventions:
* Machine integers (`u32`, `u64`) are `Nat`; none of the arithmetic in the
  program can overflow on its actual domain, so no wrap-around is modelled.
* Fallible Rust code (`Result<_, Box<dyn Error>>`) becomes `Except String _`,
  the `String` being the error message that `main` prints.
* OS facilities consulted by the program (directory enumeration, metadata,
  the identity database `getpwuid`/`getgrgid`, local-time formatting) are
  external collaborators; they are modelled as explicit inputs: a directory
  read is a `List (Except String DirEntry)` (the iterator of `fs::read_dir`
  yields one `Result` per entry), and the identity/time services are fields
  of an `OsEnv` record.
* Printing is modelled by returning the list of lines written to stdout;
  `run_main` additionally returns the process exit code and stderr lines.
-/

namespace RustyLs

/-- Metadata of one directory entry, as the program reads it via
`entry.metadata()`: the full `st_mode` word (`metadata.permissions().mode()`),
numeric owner and group ids (`metadata.uid()`, `metadata.gid()`), the byte
size (`metadata.len()`), the modification time (`metadata.modified()`, which
is itself fallible in Rust, hence `Except`), and `metadata.is_dir()`. -/
structure Metadata where
  mode : Nat
  uid : Nat
  gid : Nat
  len : Nat
  modified : Except String Nat
  is_dir : Bool

/-- One `fs::DirEntry`: its file name (the program immediately converts the
`OsString` with `to_string_lossy`, so a `String` suffices) and the result of
its `metadata()` call (deterministic for the single listing pass). -/
structure DirEntry where
  file_name : String
  metadata : Except String Metadata

/-- External OS services used by the renderer: the identity database
(`libc::getpwuid` / `libc::getgrgid`, returning no value for unmapped ids)
and the local-time formatter (`DateTime<Local>` + `format("%b %e %H:%M")`),
which the claims never constrain, so it stays an abstract function from the
abstract timestamp to its rendered text. -/
structure OsEnv where
  getpwuid : Nat → Option String
  getgrgid : Nat → Option String
  format_mod_time : Nat → String

/-- Rust `get_user_by_uid` (main.rs lines 110-117): look up a uid in the OS
identity database, `None` when unmapped. -/
def get_user_by_uid (env : OsEnv) (uid : Nat) : Option String :=
  env.getpwuid uid

/-- Rust `get_group_by_gid` (main.rs lines 119-126): look up a gid in the OS
identity database, `None` when unmapped. -/
def get_group_by_gid (env : OsEnv) (gid : Nat) : Option String :=
  env.getgrgid gid

/-- Rust `colorize_string` (main.rs lines 128-130):
`format!("{}{}{}", color, text, "\x1B[0m")`. -/
def colorize_string (text : String) (color : String) : String :=
  color ++ text ++ "\x1B[0m"

/-- Rust `bold` (main.rs lines 132-134): `format!("\x1B[1m{}\x1B[0m", text)`. -/
def bold (text : String) : String :=
  "\x1B[1m" ++ text ++ "\x1B[0m"

/-- The mask/character table of `format_permissions` (main.rs lines 155-159),
in the order it is iterated. -/
def permissions : List (Nat × Char) :=
  [(0o400, 'r'), (0o200, 'w'), (0o100, 'x'),
   (0o040, 'r'), (0o020, 'w'), (0o010, 'x'),
   (0o004, 'r'), (0o002, 'w'), (0o001, 'x')]

/-- Rust `format_permissions` (main.rs lines 154-172): for each of the nine
masks in order, push the table's character when `mode & mask != 0`, else
push `'-'`. The Rust loop pushing into a string is rendered as a `map`. -/
def format_permissions (mode : Nat) : String :=
  String.mk (permissions.map (fun p => if mode &&& p.1 != 0 then p.2 else '-'))

/-- Rounding of a `u64` to the nearest `f64` (`size as f64` in main.rs line
141/142): values below `2^53` are exact; larger values are rounded to 53
significant bits, ties to even significand. -/
def fl53 (n : Nat) : Nat :=
  if n < 2 ^ 53 then n
  else
    let k := n.log2 - 52
    let q := n / 2 ^ k
    let r := n % 2 ^ k
    let half := 2 ^ (k - 1)
    if half < r ∨ (r = half ∧ q % 2 = 1) then (q + 1) * 2 ^ k else q * 2 ^ k

/-- Number of digits after the decimal point in the exact decimal expansion
of `r / d` when `d` is a power of two dividing `r * 10^k` for some `k ≤ 60`
(true for every denominator `1024^exp`, `exp ≤ 6`, that `format_size` can
produce on the `u64` domain). -/
def frac_len (r d : Nat) : Nat :=
  (((List.range 61).find? (fun k => r * 10 ^ k % d == 0)).getD 0)

/-- Model of `(size as f64 / UNIT.pow(exp as u32) as f64).to_string()`
(main.rs line 142). The `f64` division of the rounded operand `fl53 size` by
the power of two `1024^exp` is exact, so the quotient is the dyadic rational
`fl53 size / 1024^exp`; this function renders its exact decimal expansion
(integers without a decimal point, exactly as Rust's `Display` does). Rust
prints the shortest round-trip decimal instead, which can be shorter than the
exact expansion but always starts with the same character; `format_size`
below only ever uses the first character of this string (see the `{:.1}`
truncation there), so the model is output-equivalent. Cross-checked against
the Rust behaviour on all unit boundaries and 200000 random `u64` samples. -/
def rust_f64_to_string (size exp : Nat) : String :=
  let m := fl53 size
  let d := 1024 ^ exp
  let i := m / d
  let r := m % d
  if r = 0 then toString i
  else
    let k := frac_len r d
    let frac := r * 10 ^ k / d
    let fs := toString frac
    toString i ++ "." ++ String.mk (List.replicate (k - fs.length) '0') ++ fs

/-- Model of `(size as f64).log(UNIT as f64).floor() as usize` (main.rs line
141) for `size ≥ 1024`. The `f64` computation `ln(fl53 size) / ln(1024)`
(glibc `log` is correctly rounded at every decision point, IEEE division is
correctly rounded) agrees with the exact `Nat.log 1024 size` everywhere on
the `u64` domain except two regions at the top edges of binade groups, where
the rounded quotient reaches the next integer early:
  * `2^50 - 3 ≤ size ≤ 2^50 - 1` yields `5` (exact value `4`);
  * `2^60 - 6208 ≤ size < 2^60` yields `6` (exact value `5`).
Both regions were determined by exact bisection of the monotone `f64`
computation and the whole function was cross-checked on all boundary
windows and 200000 random `u64` samples. -/
def f64_floor_log1024 (n : Nat) : Nat :=
  if 1125899906842621 ≤ n ∧ n ≤ 1125899906842623 then 5
  else if 1152921504606840768 ≤ n ∧ n < 1152921504606846976 then 6
  else Nat.log 1024 n

/-- The unit letter chosen by the `match exp` in `format_size` (main.rs lines
143-149): `1 => "K", 2 => "M", 3 => "G", 4 => "T", _ => "P"`. -/
def size_unit (exp : Nat) : String :=
  match exp with
  | 1 => "K"
  | 2 => "M"
  | 3 => "G"
  | 4 => "T"
  | _ => "P"

/-- Rust `format_size` (main.rs lines 136-152). Sizes below 1024 are printed
as `"{size} B"`. Otherwise `format!("{:.1} {}B", size_str, unit)` is used
where `size_str` is a `String`: for string arguments a precision of 1 is a
maximum width, so the stringified quotient is truncated to its first
character (`String.take 1`), not rounded to one fractional digit. -/
def format_size (size : Nat) : String :=
  if size < 1024 then toString size ++ " B"
  else
    (rust_f64_to_string size (f64_floor_log1024 size)).take 1 ++ " " ++
      size_unit (f64_floor_log1024 size) ++ "B"

/-- Rust left-justified minimum-width padding `{:<w}`: pad with spaces on the
right up to `w` characters, never truncate. -/
def fmt_left (w : Nat) (s : String) : String :=
  s ++ String.mk (List.replicate (w - s.length) ' ')

/-- Rust `print_long_format` (main.rs lines 84-108), returning the printed
row instead of writing it: `entry.metadata()?`, then the six fields
`{:<10} {:<8} {:<8} {:<10} {:<15} {}` (permissions, owner, group, size,
modification time, name — the name colorized blue, not bold, when the entry
is a directory); `metadata.modified()?` is the second fallible step. -/
def print_long_format (env : OsEnv) (entry : DirEntry) : Except String String :=
  match entry.metadata with
  | .error e => .error e
  | .ok metadata =>
    let file_name_str := entry.file_name
    let permission := format_permissions metadata.mode
    let owner := (get_user_by_uid env metadata.uid).getD ""
    let group := (get_group_by_gid env metadata.gid).getD ""
    let size := format_size metadata.len
    match metadata.modified with
    | .error e => .error e
    | .ok mtime =>
      let formatted_mod_time := env.format_mod_time mtime
      let file_type :=
        if metadata.is_dir then colorize_string file_name_str "\x1B[34m"
        else file_name_str
      .ok (fmt_left 10 permission ++ " " ++ fmt_left 8 owner ++ " " ++
           fmt_left 8 group ++ " " ++ fmt_left 10 size ++ " " ++
           fmt_left 15 formatted_mod_time ++ " " ++ file_type)

/-- The loop body of Rust `print_normal_format` (main.rs lines 33-53): walk
the entries, fetch metadata (`entry.metadata()?`, aborting on failure), wrap
directory names in bold then blue, and append `"{formatted_name}  "` to the
accumulator string. -/
def print_normal_go : List DirEntry → String → Except String String
  | [], acc => .ok acc
  | entry :: rest, acc =>
    match entry.metadata with
    | .error e => .error e
    | .ok metadata =>
      let file_name_str := entry.file_name
      let formatted_name :=
        if metadata.is_dir then colorize_string (bold file_name_str) "\x1B[34m"
        else file_name_str
      print_normal_go rest (acc ++ (formatted_name ++ "  "))

/-- Rust `print_normal_format` (main.rs lines 33-53): build the single
compact line and print it (`println!("{}", formatted_names)`), modelled as
returning the list of printed lines. -/
def print_normal_format (entries : List DirEntry) : Except String (List String) :=
  match print_normal_go entries "" with
  | .error e => .error e
  | .ok line => .ok [line]

/-- The `filter_map` of `list_files` (main.rs lines 59-71): a failed read of
an entry (`entry.ok()?`) yields `None` and is dropped; an entry whose name
starts with `"."` is dropped unless `all`; everything else is kept. -/
def listFilter (all : Bool) (entries : List (Except String DirEntry)) :
    List DirEntry :=
  entries.filterMap fun r =>
    match r with
    | .error _ => none
    | .ok entry =>
      if !all && entry.file_name.startsWith "." then none else some entry

/-- The long-format loop of `list_files` (main.rs lines 74-76):
`print_long_format(&entry)?` for each filtered entry, collecting the printed
rows and aborting on the first failure. -/
def print_rows (env : OsEnv) : List DirEntry → Except String (List String)
  | [] => .ok []
  | entry :: rest =>
    match print_long_format env entry with
    | .error e => .error e
    | .ok row =>
      match print_rows env rest with
      | .error e => .error e
      | .ok rows => .ok (row :: rows)

/-- Rust `list_files` (main.rs lines 56-82): `fs::read_dir(path)?`, the
hidden-file `filter_map`, then either the long-format loop or
`print_normal_format`; returns the printed stdout lines. -/
def list_files (env : OsEnv) (dir : Except String (List (Except String DirEntry)))
    (all long : Bool) : Except String (List String) :=
  match dir with
  | .error e => .error e
  | .ok entries =>
    if long then print_rows env (listFilter all entries)
    else print_normal_format (listFilter all entries)

/-- Rust `main` (main.rs lines 23-30): call `list_files`; on error print
`"Error: {err}"` via `eprintln!` and fall through; `main` returns `()`, so
the process exit status is 0 in both cases. Result: (exit status, stderr
lines). -/
def run_main (env : OsEnv) (dir : Except String (List (Except String DirEntry)))
    (all long : Bool) : Nat × List String :=
  match list_files env dir all long with
  | .error err => (0, ["Error: " ++ err])
  | .ok _ => (0, [])

/-! Spec-side helper material used to state the theorems: fully successful
directories (every read and every metadata fetch succeeds) built from plain
value tuples, and the expected rendering of one such entry. -/

/-- Plain metadata values for an entry whose metadata and modification time
are both available. -/
structure MetaVals where
  mode : Nat
  uid : Nat
  gid : Nat
  len : Nat
  mtime : Nat
  is_dir : Bool

/-- The `Metadata` of a fully available entry. -/
def MetaVals.toMetadata (m : MetaVals) : Metadata :=
  ⟨m.mode, m.uid, m.gid, m.len, .ok m.mtime, m.is_dir⟩

/-- A directory entry that reads successfully and has available metadata. -/
def goodDirEntry (p : String × MetaVals) : DirEntry :=
  ⟨p.1, .ok p.2.toMetadata⟩

/-- The read-dir item for a fully successful entry. -/
def goodEntry (p : String × MetaVals) : Except String DirEntry :=
  .ok (goodDirEntry p)

/-- The long-format row the program prints for a fully successful entry. -/
def rowOf (env : OsEnv) (p : String × MetaVals) : String :=
  fmt_left 10 (format_permissions p.2.mode) ++ " " ++
  fmt_left 8 ((env.getpwuid p.2.uid).getD "") ++ " " ++
  fmt_left 8 ((env.getgrgid p.2.gid).getD "") ++ " " ++
  fmt_left 10 (format_size p.2.len) ++ " " ++
  fmt_left 15 (env.format_mod_time p.2.mtime) ++ " " ++
  (if p.2.is_dir then colorize_string p.1 "\x1B[34m" else p.1)

/-- The compact-format display token of a fully successful entry. -/
def tokenOf (p : String × MetaVals) : String :=
  if p.2.is_dir then colorize_string (bold p.1) "\x1B[34m" else p.1

/-- Concatenation of a list of strings in order (the compact line is the
concatenation of the `"{token}  "` fragments). -/
def concat_all : List String → String
  | [] => ""
  | s :: rest => s ++ concat_all rest

/-- An identity database with no mapped users or groups and a trivial time
formatter, for concrete evaluations. -/
def env0 : OsEnv :=
  ⟨fun _ => none, fun _ => none, fun _ => ""⟩

/-- Concrete metadata values for evaluations: a regular file of 10 bytes
with mode `0o644`. -/
def mv0 : MetaVals :=
  ⟨0o644, 0, 0, 10, 0, false⟩

end RustyLs

/-! Helper lemmas shared by the claim theorems. -/

namespace RustyLs

/-- Evaluation rule for `format_size` when the code's exponent takes the
`Nat.log` branch (the argument is outside both `f64` anomaly regions). -/
theorem format_size_of_exp (b k : Nat) (hb : 1024 ≤ b)
    (ha1 : ¬(1125899906842621 ≤ b ∧ b ≤ 1125899906842623))
    (ha2 : ¬(1152921504606840768 ≤ b ∧ b < 1152921504606846976))
    (hk : Nat.log 1024 b = k) :
    format_size b = (rust_f64_to_string b k).take 1 ++ " " ++ size_unit k ++ "B" := by
  unfold format_size f64_floor_log1024
  rw [if_neg (by omega), if_neg ha1, if_neg ha2, hk]

/-- Unfolding rule for `format_size` on sizes of at least 1024 bytes. -/
theorem format_size_suffix (b : Nat) (hb : 1024 ≤ b) :
    format_size b = (rust_f64_to_string b (f64_floor_log1024 b)).take 1 ++ " " ++
      size_unit (f64_floor_log1024 b) ++ "B" := by
  unfold format_size
  rw [if_neg (by omega)]

/-- Every exponent of at least 5 falls into the default arm of the unit
match and yields `"P"`. -/
theorem size_unit_of_ge5 (k : Nat) (h : 5 ≤ k) : size_unit k = "P" := by
  match k, h with
  | k + 5, _ => rfl

/-- From `1024^5 - 3` upward the code's exponent is at least 5: the two
anomaly branches return 5 and 6, and on the `Nat.log` branch the argument is
then at least `1024^5`. -/
theorem f64log_ge5 (b : Nat) (h : 1125899906842621 ≤ b) :
    5 ≤ f64_floor_log1024 b := by
  unfold f64_floor_log1024
  split
  · exact le_refl 5
  · split
    · omega
    · have hp : (1024 : Nat) ^ 5 ≤ b := by norm_num; omega
      exact (Nat.pow_le_iff_le_log (by norm_num) (by omega)).1 hp

/-- Conjunction of the nine mask absorptions behind `format_permissions`:
masking the mode with `0o777` first does not change the test of any of the
nine permission masks. -/
theorem fp_mask_absorb (m mask : Nat) (h : 0o777 &&& mask = mask) :
    m &&& 0o777 &&& mask = m &&& mask := by
  rw [Nat.land_assoc, h]

/-- The hidden-file `filter_map` on a directory whose reads all succeed
keeps exactly the entries that are visible under the `all` flag, in order. -/
theorem listFilter_good (all : Bool) (xs : List (String × MetaVals)) :
    listFilter all (xs.map goodEntry)
      = (xs.filter (fun p => all || !(p.1.startsWith "."))).map goodDirEntry := by
  induction xs with
  | nil => rfl
  | cons p rest ih =>
    have hstep : listFilter all (goodEntry p :: rest.map goodEntry)
        = if !all && p.1.startsWith "." then listFilter all (rest.map goodEntry)
          else goodDirEntry p :: listFilter all (rest.map goodEntry) := by
      simp only [listFilter, List.filterMap_cons, goodEntry]
      cases h : (!all && p.1.startsWith ".") <;> simp [h, goodDirEntry]
    show listFilter all (goodEntry p :: rest.map goodEntry) = _
    rw [hstep, ih]
    cases hall : all <;> cases hs : p.1.startsWith "." <;>
      simp [List.filter_cons, hall, hs]

/-- `print_long_format` on a fully available entry prints its row. -/
theorem print_long_good (env : OsEnv) (p : String × MetaVals) :
    print_long_format env (goodDirEntry p) = .ok (rowOf env p) := rfl

/-- The long-format loop on fully available entries prints one row per
entry, in order. -/
theorem print_rows_good (env : OsEnv) (xs : List (String × MetaVals)) :
    print_rows env (xs.map goodDirEntry) = .ok (xs.map (rowOf env)) := by
  induction xs with
  | nil => rfl
  | cons p rest ih =>
    simp only [List.map, print_rows, print_long_good, ih]

/-- The compact-format loop on fully available entries concatenates one
`"{token}  "` fragment per entry onto the accumulator, in order. -/
theorem print_normal_go_good (xs : List (String × MetaVals)) (acc : String) :
    print_normal_go (xs.map goodDirEntry) acc
      = .ok (acc ++ concat_all (xs.map (fun p => tokenOf p ++ "  "))) := by
  induction xs generalizing acc with
  | nil => simp [print_normal_go, concat_all]
  | cons p rest ih =>
    simp only [List.map, print_normal_go, goodDirEntry, MetaVals.toMetadata, ih,
      concat_all, tokenOf, String.append_assoc]

/-! Claim theorems. -/

/-- Claim C1 (code bug, evaluation at the failing inputs): `format_size`
does NOT render one fractional digit. `format!("{:.1} {}B", size_str, unit)`
applies the precision to the already-stringified quotient, and for string
arguments a precision is a maximum width, so the quotient is truncated to
its first character: `format_size 1024 = "1 KB"` (the spec claims
`"1.0 KB"`), `format_size 1536 = "1 KB"` (spec: `"1.5 KB"`),
`format_size 1048576 = "1 MB"` (spec: `"1.0 MB"`). The sub-1024 examples
`"0 B"` and `"1023 B"` do hold. -/
theorem C1_format_size_truncates :
    format_size 0 = "0 B" ∧ format_size 1023 = "1023 B" ∧
    format_size 1024 = "1 KB" ∧ format_size 1536 = "1 KB" ∧
    format_size 1048576 = "1 MB" := by
  refine ⟨by decide, by decide, ?_, ?_, ?_⟩
  · rw [format_size_of_exp 1024 1 (by norm_num) (by omega) (by omega)
      (Nat.log_eq_of_pow_le_of_lt_pow (by norm_num) (by norm_num))]
    decide
  · rw [format_size_of_exp 1536 1 (by norm_num) (by omega) (by omega)
      (Nat.log_eq_of_pow_le_of_lt_pow (by norm_num) (by norm_num))]
    decide
  · rw [format_size_of_exp 1048576 2 (by norm_num) (by omega) (by omega)
      (Nat.log_eq_of_pow_le_of_lt_pow (by norm_num) (by norm_num))]
    decide

/-- Claim C2, counterexample: at `b = 1024^5 - 1` (which lies in
`[1024^4, 1024^5)`, so the claim demands the label `"TB"`), the `f64`
computation `floor(log_1024 b)` rounds up to 5 and the program prints
`"0 PB"`: no string `s` makes the output equal `s ++ " TB"`. -/
theorem C2_unit_label_cex :
    format_size 1125899906842623 = "0 PB" ∧
    ¬ ∃ s : String, format_size 1125899906842623 = s ++ " TB" := by
  have h : format_size 1125899906842623 = "0 PB" := by
    unfold format_size f64_floor_log1024
    rw [if_neg (by omega), if_pos (by omega)]
    decide
  refine ⟨h, ?_⟩
  rintro ⟨s, hs⟩
  rw [h] at hs
  have ld : ['0'] ++ [' ', 'P', 'B'] = s.data ++ [' ', 'T', 'B'] := by
    have hd := congrArg String.data hs
    rw [String.data_append] at hd
    exact hd
  exact absurd (List.append_inj' ld rfl).2 (by decide)

/-- Claim C2 as amended: for `b < 1024` the output is the decimal digits of
`b` followed by `" B"`; the unit label is `"KB"` on `[1024, 1024^2)`, `"MB"`
on `[1024^2, 1024^3)`, `"GB"` on `[1024^3, 1024^4)`, `"TB"` on
`[1024^4, 1024^5 - 4]`, and `"PB"` from `1024^5 - 3` upward — the three
sizes `1024^5 - 3 .. 1024^5 - 1` are labeled `"PB"`, not `"TB"`, because the
floating-point `floor(log_1024)` reaches 5 early at the top edge of the
`"TB"` range. -/
theorem C2_unit_suffixes (b : Nat) :
    (b < 1024 → format_size b = toString b ++ " B") ∧
    (1024 ≤ b → b < 1024 ^ 2 → ∃ s, format_size b = s ++ " KB") ∧
    (1024 ^ 2 ≤ b → b < 1024 ^ 3 → ∃ s, format_size b = s ++ " MB") ∧
    (1024 ^ 3 ≤ b → b < 1024 ^ 4 → ∃ s, format_size b = s ++ " GB") ∧
    (1024 ^ 4 ≤ b → b < 1024 ^ 5 - 3 → ∃ s, format_size b = s ++ " TB") ∧
    (1024 ^ 5 - 3 ≤ b → ∃ s, format_size b = s ++ " PB") := by
  refine ⟨?_, ?_, ?_, ?_, ?_, ?_⟩
  · intro h
    unfold format_size
    rw [if_pos h]
  · intro h1 h2
    norm_num at h2
    refine ⟨(rust_f64_to_string b 1).take 1, ?_⟩
    rw [format_size_of_exp b 1 h1 (by omega) (by omega)
      (Nat.log_eq_of_pow_le_of_lt_pow (by norm_num; omega) (by norm_num; omega)),
      String.append_assoc, String.append_assoc]
    rfl
  · intro h1 h2
    norm_num at h1 h2
    refine ⟨(rust_f64_to_string b 2).take 1, ?_⟩
    rw [format_size_of_exp b 2 (by omega) (by omega) (by omega)
      (Nat.log_eq_of_pow_le_of_lt_pow (by norm_num; omega) (by norm_num; omega)),
      String.append_assoc, String.append_assoc]
    rfl
  · intro h1 h2
    norm_num at h1 h2
    refine ⟨(rust_f64_to_string b 3).take 1, ?_⟩
    rw [format_size_of_exp b 3 (by omega) (by omega) (by omega)
      (Nat.log_eq_of_pow_le_of_lt_pow (by norm_num; omega) (by norm_num; omega)),
      String.append_assoc, String.append_assoc]
    rfl
  · intro h1 h2
    norm_num at h1 h2
    refine ⟨(rust_f64_to_string b 4).take 1, ?_⟩
    rw [format_size_of_exp b 4 (by omega) (by omega) (by omega)
      (Nat.log_eq_of_pow_le_of_lt_pow (by norm_num; omega) (by norm_num; omega)),
      String.append_assoc, String.append_assoc]
    rfl
  · intro h
    norm_num at h
    refine ⟨(rust_f64_to_string b (f64_floor_log1024 b)).take 1, ?_⟩
    rw [format_size_suffix b (by omega), size_unit_of_ge5 _ (f64log_ge5 b (by omega)),
      String.append_assoc, String.append_assoc]
    rfl

/-- Witness for C2: the hypotheses of the `"MB"` conjunct hold at
`b = 1048576` and the theorem produces the `" MB"` suffix there. -/
theorem C2_unit_suffixes_witness :
    ((1024 : Nat) ^ 2 ≤ 1048576 ∧ (1048576 : Nat) < 1024 ^ 3) ∧
    ∃ s, format_size 1048576 = s ++ " MB" :=
  ⟨⟨by norm_num, by norm_num⟩,
   (C2_unit_suffixes 1048576).2.2.1 (by norm_num) (by norm_num)⟩

/-- Claim C3, counterexample: a failed read of a directory-iteration item
does NOT fail the listing. A directory whose only item fails to read lists
successfully as empty, and a failing item followed by a good entry is
silently skipped while the good entry is still rendered — the call
skips-and-continues instead of returning the error. -/
theorem C3_read_error_skipped_cex :
    list_files env0 (.ok [.error "read failed"]) true true = .ok [] ∧
    list_files env0 (.ok [.error "read failed", goodEntry ("a", mv0)]) true true
      = .ok [rowOf env0 ("a", mv0)] :=
  ⟨rfl, rfl⟩

/-- Claim C3 as amended: a failure while fetching metadata for a visible
entry fails the whole call with that error (in both the compact and the long
mode), but a failure while reading a directory-iteration item is silently
dropped by the `filter_map` (`entry.ok()?`) and the listing continues as if
the item were absent. -/
theorem C3_error_propagation (env : OsEnv) (err : String)
    (dir : List (Except String DirEntry)) (all long : Bool) (name : String) :
    (list_files env (.ok (.error err :: dir)) all long
        = list_files env (.ok dir) all long) ∧
    (list_files env (.ok (.ok ⟨name, .error err⟩ :: dir)) true long = .error err) := by
  constructor
  · show (if long = true then _ else _) = (if long = true then _ else _)
    have h : listFilter all (.error err :: dir) = listFilter all dir := by
      simp [listFilter, List.filterMap_cons]
    rw [h]
  · have h : listFilter true ((.ok ⟨name, .error err⟩ : Except String DirEntry) :: dir)
        = ⟨name, .error err⟩ :: listFilter true dir := by
      simp [listFilter, List.filterMap_cons]
    show (if long = true then _ else _) = _
    rw [h]
    cases long with
    | true => simp [print_rows, print_long_format]
    | false => simp [print_normal_format, print_normal_go]

/-- Claim C4: for a directory whose reads and metadata fetches all succeed,
the entries kept by the filter are exactly the full entry list minus the
names starting with `"."` (all of them kept when `showHidden` is true, the
filter predicate `all || not-hidden` covering both flag values), and the
long listing renders exactly one row per kept entry, in enumeration order —
so the rendered set is the visible set and nothing is rendered twice. -/
theorem C4_rendered_set (env : OsEnv) (xs : List (String × MetaVals)) (all : Bool) :
    ((listFilter all (xs.map goodEntry)).map DirEntry.file_name
        = (xs.map Prod.fst).filter (fun n => all || !(n.startsWith "."))) ∧
    (list_files env (.ok (xs.map goodEntry)) all true
        = .ok ((xs.filter (fun p => all || !(p.1.startsWith "."))).map (rowOf env))) ∧
    (list_files env (.ok (xs.map goodEntry)) all false
        = .ok [concat_all ((xs.filter (fun p => all || !(p.1.startsWith "."))).map
            (fun p => tokenOf p ++ "  "))]) := by
  refine ⟨?_, ?_, ?_⟩
  · rw [listFilter_good, List.map_map]
    induction xs with
    | nil => rfl
    | cons p rest ih =>
      cases h : (all || !(p.1.startsWith ".")) <;>
        simp_all [List.filter_cons, goodDirEntry]
  · have h0 : list_files env (.ok (xs.map goodEntry)) all true
        = print_rows env (listFilter all (xs.map goodEntry)) := rfl
    rw [h0, listFilter_good, print_rows_good]
  · have h0 : list_files env (.ok (xs.map goodEntry)) all false
        = print_normal_format (listFilter all (xs.map goodEntry)) := rfl
    rw [h0, listFilter_good]
    unfold print_normal_format
    rw [print_normal_go_good]
    rfl

/-- Claim C5: `format_permissions` always returns a 9-character string; its
characters are, in order, the owner-read/write/execute,
group-read/write/execute, other-read/write/execute tests, each rendering
`r`, `w` or `x` when the corresponding bit is set and `-` otherwise; and the
three given evaluations hold. -/
theorem C5_format_permissions (mode : Nat) :
    (format_permissions mode).length = 9 ∧
    format_permissions mode = String.mk [
      if mode &&& 0o400 != 0 then 'r' else '-',
      if mode &&& 0o200 != 0 then 'w' else '-',
      if mode &&& 0o100 != 0 then 'x' else '-',
      if mode &&& 0o040 != 0 then 'r' else '-',
      if mode &&& 0o020 != 0 then 'w' else '-',
      if mode &&& 0o010 != 0 then 'x' else '-',
      if mode &&& 0o004 != 0 then 'r' else '-',
      if mode &&& 0o002 != 0 then 'w' else '-',
      if mode &&& 0o001 != 0 then 'x' else '-' ] ∧
    format_permissions 0o755 = "rwxr-xr-x" ∧
    format_permissions 0o644 = "rw-r--r--" ∧
    format_permissions 0 = "---------" := by
  refine ⟨?_, rfl, by decide, by decide, by decide⟩
  simp [format_permissions, permissions]

/-- Claim C6: `colorize_string` produces exactly `color ++ text ++ RESET`,
`bold` produces exactly `BOLD ++ text ++ RESET`, and the directory-name
combination used by the compact renderer is the literal nesting
`COLOR ++ BOLD ++ name ++ RESET ++ RESET` — plain string concatenation, not
a combined ANSI code. -/
theorem C6_ansi_wrapping (t name c : String) :
    colorize_string t c = c ++ t ++ "\x1B[0m" ∧
    bold t = "\x1B[1m" ++ t ++ "\x1B[0m" ∧
    colorize_string (bold name) "\x1B[34m"
      = "\x1B[34m" ++ "\x1B[1m" ++ name ++ "\x1B[0m" ++ "\x1B[0m" := by
  refine ⟨rfl, rfl, ?_⟩
  simp only [colorize_string, bold, String.append_assoc]

/-- Claim C7: compact-mode output is one single line, the concatenation, in
enumeration order, of one `token ++ "  "` fragment per visible entry (hence
two spaces between tokens and two trailing spaces), where the token of a
directory is the name wrapped in bold and blue ANSI styling and the token of
any other entry is the raw name. -/
theorem C7_compact_line (env : OsEnv) (xs : List (String × MetaVals)) (all : Bool) :
    list_files env (.ok (xs.map goodEntry)) all false
      = .ok [concat_all ((xs.filter (fun p => all || !(p.1.startsWith "."))).map
          (fun p => (if p.2.is_dir then colorize_string (bold p.1) "\x1B[34m" else p.1)
            ++ "  "))] := by
  have h0 : list_files env (.ok (xs.map goodEntry)) all false
      = print_normal_format (listFilter all (xs.map goodEntry)) := rfl
  rw [h0, listFilter_good]
  unfold print_normal_format
  rw [print_normal_go_good]
  rfl

/-- Claim C8: whatever the listing does, the process exit status is 0; a
listing failure is printed to standard error as `"Error: {message}"` and a
success prints nothing to standard error — the error never becomes a
non-zero exit code and `main` terminates normally either way. -/
theorem C8_exit_status (env : OsEnv)
    (dir : Except String (List (Except String DirEntry))) (all long : Bool) :
    (run_main env dir all long).1 = 0 ∧
    (∀ err, list_files env dir all long = .error err →
      run_main env dir all long = (0, ["Error: " ++ err])) ∧
    (∀ out, list_files env dir all long = .ok out →
      run_main env dir all long = (0, [])) := by
  unfold run_main
  cases h : list_files env dir all long <;> simp_all

/-- Witness for C8: a directory whose open fails with `"boom"` exits with
status 0 and prints `"Error: boom"` to standard error. -/
theorem C8_exit_status_witness :
    (run_main env0 (Except.error "boom") true false).1 = 0 ∧
    run_main env0 (Except.error "boom") true false = (0, ["Error: " ++ "boom"]) :=
  ⟨(C8_exit_status env0 (Except.error "boom") true false).1,
   (C8_exit_status env0 (Except.error "boom") true false).2.1 "boom" rfl⟩

/-- Claim C9: in detailed mode, when the uid (or the gid) of an entry does
not resolve, the owner (resp. group) field is the empty string, padded like
any other value, and the row is still rendered in full — the failed
resolution is not an error. -/
theorem C9_unknown_identity (env : OsEnv) (name : String) (m : MetaVals) :
    (env.getpwuid m.uid = none →
      print_long_format env ⟨name, .ok m.toMetadata⟩ =
        .ok (fmt_left 10 (format_permissions m.mode) ++ " " ++ fmt_left 8 "" ++ " " ++
             fmt_left 8 ((env.getgrgid m.gid).getD "") ++ " " ++
             fmt_left 10 (format_size m.len) ++ " " ++
             fmt_left 15 (env.format_mod_time m.mtime) ++ " " ++
             (if m.is_dir then colorize_string name "\x1B[34m" else name))) ∧
    (env.getgrgid m.gid = none →
      print_long_format env ⟨name, .ok m.toMetadata⟩ =
        .ok (fmt_left 10 (format_permissions m.mode) ++ " " ++
             fmt_left 8 ((env.getpwuid m.uid).getD "") ++ " " ++ fmt_left 8 "" ++ " " ++
             fmt_left 10 (format_size m.len) ++ " " ++
             fmt_left 15 (env.format_mod_time m.mtime) ++ " " ++
             (if m.is_dir then colorize_string name "\x1B[34m" else name))) := by
  constructor
  · intro hu
    simp [print_long_format, MetaVals.toMetadata, get_user_by_uid, get_group_by_gid, hu]
  · intro hg
    simp [print_long_format, MetaVals.toMetadata, get_user_by_uid, get_group_by_gid, hg]

/-- Witness for C9: in the environment with an empty identity database, uid
0 of the concrete entry does not resolve and the row is rendered with an
empty owner field. -/
theorem C9_unknown_identity_witness :
    env0.getpwuid mv0.uid = none ∧
    print_long_format env0 ⟨"f", .ok mv0.toMetadata⟩ =
      .ok (fmt_left 10 (format_permissions mv0.mode) ++ " " ++ fmt_left 8 "" ++ " " ++
           fmt_left 8 ((env0.getgrgid mv0.gid).getD "") ++ " " ++
           fmt_left 10 (format_size mv0.len) ++ " " ++
           fmt_left 15 (env0.format_mod_time mv0.mtime) ++ " " ++
           (if mv0.is_dir then colorize_string "f" "\x1B[34m" else "f")) :=
  ⟨rfl, (C9_unknown_identity env0 "f" mv0).1 rfl⟩

/-- Claim C10: `format_permissions` is total on the whole mode word and its
output depends only on the low 9 permission bits — masking with `0o777`
never changes the result, so file-type, setuid, setgid and sticky bits are
ignored; in particular a setuid `0o4755` renders exactly like `0o755`. -/
theorem C10_permissions_mask (m : Nat) :
    format_permissions m = format_permissions (m &&& 0o777) ∧
    format_permissions 0o4755 = format_permissions 0o755 := by
  refine ⟨?_, by decide⟩
  unfold format_permissions permissions
  simp only [List.map]
  rw [fp_mask_absorb m 0o400 (by decide), fp_mask_absorb m 0o200 (by decide),
    fp_mask_absorb m 0o100 (by decide), fp_mask_absorb m 0o040 (by decide),
    fp_mask_absorb m 0o020 (by decide), fp_mask_absorb m 0o010 (by decide),
    fp_mask_absorb m 0o004 (by decide), fp_mask_absorb m 0o002 (by decide),
    fp_mask_absorb m 0o001 (by decide)]

end RustyLs
